import Mathlib

/-!
Verification development for the Tenjin (10j) dependency-provisioning and
version-reconciliation engine (cli/provisioning.py, cli/constants.py,
cli/sha256sum.py, with directory helpers from cli/hermetic.py).

The Python code is shallowly embedded: module-level mutable state (the HAVE
singleton of TrackingWhatWeHave, the persisted config.10j-HAVE.json file) is
threaded explicitly through a PState record; external-world observations
(platform, subprocess outputs, download results) are an explicit Env record;
side effects are logged in an effect trace; exceptions are an Option error
component that aborts sequencing, while state mutations performed before the
raise are kept (Python semantics). The global WANT manifest of constants.py is
passed as an explicit parameter W to the engine functions and instantiated
with the concrete table below.
-/

namespace Neinjin

/-! ## Versions: model of packaging.version.Version (PEP 440)

The engine parses version specifiers with the third-party packaging library.
We embed the published PEP 440 grammar used by packaging.version.VERSION_PATTERN
(optional v prefix, epoch, dotted release, pre/post/dev segments, local segment,
case-insensitive, surrounding whitespace allowed) and its comparison key
ordering. Strings that do not match the grammar fail to parse, corresponding to
the InvalidVersion exception raised by Version(...). -/

def isPySpace (c : Char) : Bool :=
  c = ' ' || c = '\t' || c = '\n' || c = '\r' || c.toNat = 11 || c.toNat = 12

def digitVal (c : Char) : Nat := c.toNat - 48

def natOfDigits (ds : List Char) : Nat :=
  ds.foldl (fun a c => a * 10 + digitVal c) 0

def takeDigits (cs : List Char) : List Char × List Char :=
  (cs.takeWhile Char.isDigit, cs.dropWhile Char.isDigit)

/-- One segment of a PEP 440 local version label: numeric segments compare as
numbers and above string segments; string segments compare lexicographically. -/
inductive LocalSeg
  | num (n : Nat)
  | str (s : List Char)
deriving DecidableEq, Repr

/-- Parsed form of a PEP 440 version, mirroring the fields extracted by the
packaging library: epoch, dotted release, optional pre-release (normalized
letter rank: a=0, b=1, rc=2 and its number), optional post-release number,
optional dev-release number, optional local label. -/
structure PyVersion where
  epoch : Nat
  release : List Nat
  pre : Option (Nat × Nat)
  post : Option Nat
  dev : Option Nat
  locseg : Option (List LocalSeg)
deriving DecidableEq, Repr, Inhabited

def prefixMatch (w : List Char) (cs : List Char) : Option (List Char) :=
  match w, cs with
  | [], rest => some rest
  | _, [] => none
  | a :: ws, b :: rest => if a = b then prefixMatch ws rest else none

def firstWordMatch (ws : List (List Char × Nat)) (cs : List Char) :
    Option (Nat × List Char) :=
  match ws with
  | [] => none
  | (w, tag) :: rest =>
    match prefixMatch w cs with
    | some r => some (tag, r)
    | none => firstWordMatch rest cs

/-- Optional single separator character, as in the PEP 440 pattern fragments. -/
def stripSep1 (cs : List Char) : List Char :=
  match cs with
  | c :: rest => if c = '-' || c = '_' || c = '.' then rest else cs
  | [] => []

def preWords : List (List Char × Nat) :=
  [("alpha".data, 0), ("beta".data, 1), ("preview".data, 2), ("pre".data, 2),
   ("rc".data, 2), ("a".data, 0), ("b".data, 1), ("c".data, 2)]

def parsePreSeg (cs : List Char) : Option (Nat × Nat) × List Char :=
  let cs1 := stripSep1 cs
  match firstWordMatch preWords cs1 with
  | none => (none, cs)
  | some (rank, rest) =>
    let rest1 := stripSep1 rest
    let (ds, rest2) := takeDigits rest1
    (some (rank, natOfDigits ds), rest2)

def postWords : List (List Char × Nat) :=
  [("post".data, 0), ("rev".data, 0), ("r".data, 0)]

def parsePostLetter (cs : List Char) : Option Nat × List Char :=
  let cs1 := stripSep1 cs
  match firstWordMatch postWords cs1 with
  | none => (none, cs)
  | some (_, rest) =>
    let rest1 := stripSep1 rest
    let (ds, rest2) := takeDigits rest1
    (some (natOfDigits ds), rest2)

def parsePostSeg (cs : List Char) : Option Nat × List Char :=
  match cs with
  | '-' :: rest =>
    let (ds, rest2) := takeDigits rest
    if ds = [] then parsePostLetter cs else (some (natOfDigits ds), rest2)
  | _ => parsePostLetter cs

def parseDevSeg (cs : List Char) : Option Nat × List Char :=
  let cs1 := stripSep1 cs
  match prefixMatch "dev".data cs1 with
  | none => (none, cs)
  | some rest =>
    let rest1 := stripSep1 rest
    let (ds, rest2) := takeDigits rest1
    (some (natOfDigits ds), rest2)

def isLocalChar (c : Char) : Bool := c.isDigit || ('a' ≤ c && c ≤ 'z')

def localSegOf (seg : List Char) : LocalSeg :=
  if seg.all Char.isDigit then .num (natOfDigits seg) else .str seg

def parseLocalLoop : Nat → List LocalSeg → List Char → Option (List LocalSeg)
  | _, acc, [] => some acc.reverse
  | 0, _, _ => none
  | fuel + 1, acc, c :: rest =>
    if c = '-' || c = '_' || c = '.' then
      let seg := rest.takeWhile isLocalChar
      let rest2 := rest.dropWhile isLocalChar
      if seg = [] then none else parseLocalLoop fuel (localSegOf seg :: acc) rest2
    else none

def parseLocal (cs : List Char) : Option (List LocalSeg) :=
  let seg := cs.takeWhile isLocalChar
  let rest := cs.dropWhile isLocalChar
  if seg = [] then none else parseLocalLoop rest.length [localSegOf seg] rest

def parseRelLoop : Nat → List Nat → List Char → List Nat × List Char
  | 0, acc, cs => (acc.reverse, cs)
  | fuel + 1, acc, cs =>
    match cs with
    | '.' :: rest =>
      let (ds, rest2) := takeDigits rest
      if ds = [] then (acc.reverse, cs) else parseRelLoop fuel (natOfDigits ds :: acc) rest2
    | _ => (acc.reverse, cs)

/-- Model of packaging.version.Version construction: returns none exactly when
the constructor would raise InvalidVersion. -/
def parseVersion (s : String) : Option PyVersion :=
  let cs0 := s.data.map Char.toLower
  let cs1 := cs0.dropWhile isPySpace
  let cs2 := (cs1.reverse.dropWhile isPySpace).reverse
  let cs3 := match cs2 with
             | 'v' :: rest => rest
             | _ => cs2
  let (d1, r1) := takeDigits cs3
  let (epoch, relStart) :=
    match r1 with
    | '!' :: r2 => if d1 = [] then (0, cs3) else (natOfDigits d1, r2)
    | _ => (0, cs3)
  let (rds, r3) := takeDigits relStart
  if rds = [] then none else
  let (release, r4) := parseRelLoop r3.length [natOfDigits rds] r3
  let (pre, r5) := parsePreSeg r4
  let (post, r6) := parsePostSeg r5
  let (dev, r7) := parseDevSeg r6
  match r7 with
  | [] => some { epoch := epoch, release := release, pre := pre, post := post,
                 dev := dev, locseg := none }
  | '+' :: r8 =>
    match parseLocal r8 with
    | some segs => some { epoch := epoch, release := release, pre := pre,
                          post := post, dev := dev, locseg := some segs }
    | none => none
  | _ => none

/-! ### Comparison key, mirroring packaging Version ordering -/

def cmpListLex {α : Type} (cmp : α → α → Ordering) : List α → List α → Ordering
  | [], [] => .eq
  | [], _ :: _ => .lt
  | _ :: _, [] => .gt
  | a :: as', b :: bs' =>
    match cmp a b with
    | .eq => cmpListLex cmp as' bs'
    | o => o

inductive BoundedKey (α : Type)
  | negInf
  | val (a : α)
  | posInf

def cmpBounded {α : Type} (cmp : α → α → Ordering) :
    BoundedKey α → BoundedKey α → Ordering
  | .negInf, .negInf => .eq
  | .negInf, _ => .lt
  | _, .negInf => .gt
  | .posInf, .posInf => .eq
  | .posInf, _ => .gt
  | _, .posInf => .lt
  | .val a, .val b => cmp a b

def cmpCharList (a b : List Char) : Ordering :=
  cmpListLex (fun x y => compare x.toNat y.toNat) a b

def cmpLocalSeg : LocalSeg → LocalSeg → Ordering
  | .num a, .num b => compare a b
  | .num _, .str _ => .gt
  | .str _, .num _ => .lt
  | .str a, .str b => cmpCharList a b

def cmpNatPair (a b : Nat × Nat) : Ordering :=
  match compare a.1 b.1 with
  | .eq => compare a.2 b.2
  | o => o

/-- Release tuple with trailing zeros removed, as in the packaging cmpkey. -/
def trimRelease (l : List Nat) : List Nat :=
  (l.reverse.dropWhile (fun n => n == 0)).reverse

def preKeyOf (v : PyVersion) : BoundedKey (Nat × Nat) :=
  match v.pre, v.post, v.dev with
  | none, none, some _ => .negInf
  | none, _, _ => .posInf
  | some p, _, _ => .val p

def postKeyOf (v : PyVersion) : BoundedKey Nat :=
  match v.post with
  | none => .negInf
  | some n => .val n

def devKeyOf (v : PyVersion) : BoundedKey Nat :=
  match v.dev with
  | none => .posInf
  | some n => .val n

def localKeyOf (v : PyVersion) : BoundedKey (List LocalSeg) :=
  match v.locseg with
  | none => .negInf
  | some l => .val l

def cmpVersion (a b : PyVersion) : Ordering :=
  match compare a.epoch b.epoch with
  | .eq =>
    match cmpListLex compare (trimRelease a.release) (trimRelease b.release) with
    | .eq =>
      match cmpBounded cmpNatPair (preKeyOf a) (preKeyOf b) with
      | .eq =>
        match cmpBounded compare (postKeyOf a) (postKeyOf b) with
        | .eq =>
          match cmpBounded compare (devKeyOf a) (devKeyOf b) with
          | .eq => cmpBounded (cmpListLex cmpLocalSeg) (localKeyOf a) (localKeyOf b)
          | o => o
        | o => o
      | o => o
    | o => o
  | o => o

/-- Model of the >= operator on packaging Version values. -/
def versionGe (a b : PyVersion) : Bool := cmpVersion a b != Ordering.lt

/-- Model of str(Version(...)): the canonical rendering the store persists via
note_we_have (str(version)). -/
def versionToString (v : PyVersion) : String :=
  (if v.epoch = 0 then "" else toString v.epoch ++ "!")
  ++ String.intercalate "." (v.release.map toString)
  ++ (match v.pre with
      | none => ""
      | some (r, n) =>
        (if r = 0 then "a" else if r = 1 then "b" else "rc") ++ toString n)
  ++ (match v.post with
      | none => ""
      | some n => ".post" ++ toString n)
  ++ (match v.dev with
      | none => ""
      | some n => ".dev" ++ toString n)
  ++ (match v.locseg with
      | none => ""
      | some segs => "+" ++ String.intercalate "."
          (segs.map fun sg =>
            match sg with
            | .num n => toString n
            | .str cs => String.mk cs))

/-! ## The manifest (constants.py) and the installed-version store -/

/-- The WANT table of cli/constants.py: tool key to desired specifier. -/
def WANT : List (String × String) :=
  [("10j-llvm", "18.1.8"),
   ("10j-opam", "2.3.0"),
   ("10j-dune", "3.18.0"),
   ("10j-ocaml", "5.2.0"),
   ("10j-cmake", "3.31.7"),
   ("10j-bullseye-sysroot-extras", "rev-03d4672c4"),
   ("10j-build-deps", "rev-03d4672c4")]

def lookupStore (m : List (String × String)) (k : String) : Option String :=
  match m with
  | [] => none
  | (k', v) :: rest => if k' = k then some v else lookupStore rest k

def setStore (m : List (String × String)) (k v : String) :
    List (String × String) :=
  match m with
  | [] => [(k, v)]
  | (k', v') :: rest =>
    if k' = k then (k, v) :: rest else (k', v') :: setStore rest k v

/-- InstallationState of provisioning.py (derived, never persisted). -/
inductive InstallationState
  | NOT_INSTALLED
  | VERSION_OK
  | VERSION_TOO_OLD
deriving DecidableEq, Repr

/-- CheckDepBy of provisioning.py: the per-key comparison rule. -/
inductive CheckDepBy
  | VERSION
  | SHA256
deriving DecidableEq, Repr

/-- Python-level failures surfaced by the embedded code. assertionError models
a failing assert statement; invalidVersion models packaging InvalidVersion;
the rest model the exception classes raised or propagated by provisioning.py. -/
inductive PyErr
  | assertionError
  | keyError (k : String)
  | invalidVersion (s : String)
  | valueError (m : String)
  | provisioningError (m : String)
  | calledProcessError (cmd : String)
  | downloadError (url : String)
  | notADirectoryError
  | fileExistsError
  | sysExit (code : Nat)
deriving DecidableEq, Repr

/-- TrackingWhatWeHave.compatible. The initial assert (name in WANT) is the
error branch; then absence from the store yields NOT_INSTALLED; under VERSION
the stored value is parsed first, then the wanted specifier (matching the
left-to-right evaluation of the Python comparison), and satisfaction is
installed >= desired; under SHA256 satisfaction is exact string equality.
Anything present but unsatisfied yields VERSION_TOO_OLD. -/
def compatible (W : List (String × String)) (haveMap : List (String × String))
    (name : String) (checkBy : CheckDepBy) : Except PyErr InstallationState :=
  match lookupStore W name with
  | none => .error .assertionError
  | some wanted_spec =>
    match lookupStore haveMap name with
    | none => .ok .NOT_INSTALLED
    | some haveSpec =>
      match checkBy with
      | .VERSION =>
        match parseVersion haveSpec with
        | none => .error (.invalidVersion haveSpec)
        | some hv =>
          match parseVersion wanted_spec with
          | none => .error (.invalidVersion wanted_spec)
          | some wv =>
            if versionGe hv wv then .ok .VERSION_OK else .ok .VERSION_TOO_OLD
      | .SHA256 =>
        if haveSpec = wanted_spec then .ok .VERSION_OK else .ok .VERSION_TOO_OLD

/-! ## Process state, effects and the external environment

Stateful Python is embedded as explicit state passing: PState carries the
in-memory HAVE._have dictionary, the persisted config.10j-HAVE.json content,
the set of plain files present in the working/install tree that the code
creates or deletes, and an append-only log of observable effects. A routine
returns its final state together with an optional exception; an exception
stops subsequent sequencing but keeps mutations made before the raise, as in
Python. -/

inductive Eff
  | echo (msg : String)
  | spawn (cmd : String)
  | downloadTo (url : String) (dest : String)
  | removePath (p : String)
  | extractTo (tarball : String) (target : String)
  | writeFileAt (p : String)
  | symlinkAt (src : String) (dst : String)
  | copyAt (src : String) (dst : String)
  | saveHave
  | noteHave (name : String) (value : String)
  | invokeRoutine (keyname : String)
deriving DecidableEq, Repr

structure PState where
  haveMap : List (String × String)
  fileMap : Option (List (String × String))
  files : List String
  trace : List Eff
deriving DecidableEq, Repr

def pushEff (s : PState) (e : Eff) : PState := { s with trace := s.trace ++ [e] }

abbrev PResult := PState × Option PyErr

def pok (s : PState) : PResult := (s, none)

def perr (s : PState) (e : PyErr) : PResult := (s, some e)

/-- Sequencing with Python exception semantics: if the first step raised, the
second never runs and the raised error propagates with the state as mutated so
far. -/
def andThen (r : PResult) (f : PState → PResult) : PResult :=
  match r with
  | (s, some e) => (s, some e)
  | (s, none) => f s

def insertFile (fs : List String) (f : String) : List String :=
  if fs.contains f then fs else fs ++ [f]

def eraseFile (fs : List String) (f : String) : List String :=
  fs.filter (fun x => x != f)

/-- Everything the external world decides during a run: the platform, the
outputs of the version-query subprocesses, whether downloads succeed, the
SHA-256 digest of the artifact each URL serves, and the ambient conditions
probed by the opam/CI helpers of hermetic.py. -/
structure Env where
  system : String
  machine : String
  localdir : String
  rustOk : Bool
  cmakeVersionOutput : String
  llvmConfigOutput : String
  opamVersionOutput : String
  ocamlVersionOutput : String
  duneVersionOutput : String
  duneCheckOutput : Option String
  downloadOk : String → Bool
  downloadedHash : String → String
  sysOpamPath : Option String
  sysOpamVersionOutput : String
  opamNonHermetic : Bool
  opamrootExists : Bool
  bwrapOk : Bool
  opamNeedsInit : Bool
  opamInitOk : Bool
  switchListHasTenjin : Bool
  switchRemoveOk : Bool
  switchCreateOk : Bool
  opamInstallDuneOk : Bool
  installerScriptExists : Bool
  opamInstallerOk : Bool
  runningInCI : Bool
  dotlocalbinOnPath : Bool
  destSysrootExists : Bool
  existingSymlink : String → Bool

/-- sez of provisioning.py: a click.echo with the TENJIN SEZ prefix. -/
def sez (msg ctx : String) (s : PState) : PState :=
  pushEff s (.echo ("TENJIN SEZ: " ++ ctx ++ msg))

/-- Directory helpers from cli/hermetic.py. -/
def xj_build_deps (localdir : String) : String := localdir ++ "/xj-build-deps"

def xj_llvm_root (localdir : String) : String := localdir ++ "/xj-llvm"

/-- TrackingWhatWeHave.note_we_have: validates that exactly one of version and
sha256hex is given, unconditionally writes the new value into the in-memory
dict, and persists the whole mapping (save) only when the value changed. -/
def note_we_have (name : String) (version : Option PyVersion)
    (sha256hex : Option String) (s : PState) : PResult :=
  match version, sha256hex with
  | none, none =>
    perr s (.valueError ("For " ++ name ++ " must provide either version or sha256hex"))
  | some _, some _ =>
    perr s (.valueError ("For " ++ name ++ " must provide either version or sha256hex, not both"))
  | _, _ =>
    let had := lookupStore s.haveMap name
    let now := match version with
               | some v => versionToString v
               | none => sha256hex.getD ""
    let s1 := { s with haveMap := setStore s.haveMap name now }
    let s2 := pushEff s1 (.noteHave name now)
    if had = some now then pok s2
    else pok (pushEff { s2 with fileMap := some s2.haveMap } .saveHave)

/-- TrackingWhatWeHave.query. -/
def query (s : PState) (name : String) : Option String :=
  lookupStore s.haveMap name

/-! ## Archive extraction (extract_tarball)

Two views of the same source function. The effect-level step used inside the
download pipeline records the extraction and checks the suffix allow-list
(select_tarball_suffix raises ValueError on unknown suffixes). The
directory-tree model below it captures the layout logic: target-directory
choice and the single, non-recursive flattening of a lone top-level directory
named after the archive. -/

def tarSuffixes : List String := [".tar.xz", ".tar.gz", ".tgz", ".tar.bz2"]

def strEndsWith (s suffix : String) : Bool :=
  (prefixMatch suffix.data.reverse s.data.reverse).isSome

/-- select_tarball_suffix: the fixed allow-list, tested in source order. -/
def select_tarball_suffix (filename : String) : Option String :=
  if strEndsWith filename ".tar.xz" then some ".tar.xz"
  else if strEndsWith filename ".tar.gz" then some ".tar.gz"
  else if strEndsWith filename ".tgz" then some ".tgz"
  else if strEndsWith filename ".tar.bz2" then some ".tar.bz2"
  else none

def removeSuffixStr (s suffix : String) : String :=
  String.mk (s.data.take (s.data.length - suffix.data.length))

/-- The archive base name: file name minus its recognized compression suffix. -/
def tarballBasename (filename : String) : Option String :=
  match select_tarball_suffix filename with
  | some suf => some (removeSuffixStr filename suf)
  | none => none

def extract_tarball_step (tarballName : String) (target : String) (s : PState) :
    PResult :=
  match select_tarball_suffix tarballName with
  | none => perr s (.valueError ("Unknown tarball suffix for URL: " ++ tarballName))
  | some _ => pok (pushEff s (.extractTo tarballName target))

/-- A directory tree: files with contents, directories with named entries. -/
inductive FsNode
  | file (data : String)
  | dir (entries : List (String × FsNode))

def lookupEntry (es : List (String × FsNode)) (k : String) : Option FsNode :=
  match es with
  | [] => none
  | (k', v) :: rest => if k' = k then some v else lookupEntry rest k

def setEntry (es : List (String × FsNode)) (k : String) (v : FsNode) :
    List (String × FsNode) :=
  match es with
  | [] => [(k, v)]
  | (k', v') :: rest =>
    if k' = k then (k, v) :: rest else (k', v') :: setEntry rest k v

/-- The flattening step at the end of extract_tarball: if the extraction
directory holds exactly one entry named after the archive base name and it is
a directory, its contents move up one level and the empty directory goes away;
iterating a lone same-named plain file would raise NotADirectoryError; any
other layout is left alone. Applied once, not recursively. -/
def flattenOnce (basename : String) (contents : List (String × FsNode)) :
    Except PyErr (List (String × FsNode)) :=
  match contents with
  | [(n, FsNode.dir inner)] => if n = basename then .ok inner else .ok contents
  | [(n, FsNode.file _)] => if n = basename then .error .notADirectoryError else .ok contents
  | _ => .ok contents

/-- Directory-layout model of extract_tarball: given the archive file name, the
entries already in the target directory (empty list covers both a missing and
an empty target), and the top-level entries the tar archive unpacks, returns
the resulting target-directory entries. A non-empty target routes the
extraction into a fresh subdirectory named after the archive base name
(choose_target_dir), merging with an existing directory of that name as
tar extractall would, and the flattening check then applies inside that
subdirectory. -/
def extract_tarball (tarballName : String) (target : List (String × FsNode))
    (archive : List (String × FsNode)) : Except PyErr (List (String × FsNode)) :=
  match select_tarball_suffix tarballName with
  | none => .error (.valueError ("Unknown tarball suffix for URL: " ++ tarballName))
  | some suf =>
    let basename := removeSuffixStr tarballName suf
    match target with
    | [] => flattenOnce basename archive
    | _ :: _ =>
      match lookupEntry target basename with
      | some (.file _) => .error .fileExistsError
      | some (.dir es) =>
        (flattenOnce basename (es ++ archive)).map fun inner =>
          setEntry target basename (.dir inner)
      | none =>
        (flattenOnce basename archive).map fun inner =>
          setEntry target basename (.dir inner)

/-! ## Checksum hashing (sha256sum.py)

compute_sha256 streams the file in 8192-byte chunks through a hash object.
The hash itself (hashlib.sha256) is an external capability, embedded as an
abstract streaming hasher; the read is an outcome that either yields the file
bytes or fails. The source wraps the whole loop in a bare except that prints
and returns None, so the model returns Except-ok in every case: the ok layer
records that no exception escapes. -/

inductive ReadOutcome
  | content (bytes : List Nat)
  | readFailure (msg : String)

structure HashAlg (St : Type) where
  init : St
  update : St → List Nat → St
  hexdigest : St → String

def chunkLoop : Nat → List Nat → List (List Nat)
  | 0, _ => []
  | _, [] => []
  | fuel + 1, l => l.take 8192 :: chunkLoop fuel (l.drop 8192)

/-- The 8192-byte blocks produced by iter(lambda: f.read(8192), b""). -/
def chunksOf8192 (l : List Nat) : List (List Nat) := chunkLoop l.length l

def compute_sha256 {St : Type} (alg : HashAlg St) (r : ReadOutcome) :
    Except String (Option String) :=
  match r with
  | .content bytes =>
    .ok (some (alg.hexdigest ((chunksOf8192 bytes).foldl alg.update alg.init)))
  | .readFailure _ => .ok none

/-! ## Download pipeline and acquisition routines -/

/-- Split a character list at every occurrence of the separator, keeping empty
groups (the str.split(sep) behavior). -/
def splitCharsOn (sep : Char) (cs : List Char) : List (List Char) :=
  match cs with
  | [] => [[]]
  | c :: rest =>
    match splitCharsOn sep rest with
    | [] => [[]]
    | group :: groups =>
      if c = sep then [] :: group :: groups else (c :: group) :: groups

/-- Basename of the path component of the URL (os.path.basename of
urlparse(url).path): the part after the last slash. -/
def urlBasename (url : String) : String :=
  match (splitCharsOn '/' url.data).reverse with
  | last :: _ => String.mk last
  | [] => url

/-- download_and_extract_tarball. The try block covers only the temp-file
computation and the download, removing a partial file before re-raising; the
later checksum check raises ProvisioningError without removing anything; the
extraction runs with no time estimate; the temp file is removed only after a
successful extraction. -/
def download_and_extract_tarball (env : Env) (tarball_url : String)
    (target_dir : String) (ctx : String) (time_estimate : String)
    (required_sha256sum : Option String) (s : PState) : PResult :=
  let s := sez ("This will take " ++ time_estimate ++ "...") ctx s
  let temp_file := urlBasename tarball_url
  let s := sez ("Downloading " ++ tarball_url ++ "...") ctx s
  if env.downloadOk tarball_url then
    let s := pushEff s (.downloadTo tarball_url temp_file)
    let s := { s with files := insertFile s.files temp_file }
    andThen
      (match required_sha256sum with
       | some req =>
         if env.downloadedHash tarball_url != req then
           perr s (.provisioningError
             ("SHA256 checksum verification failed for " ++ temp_file ++ "!"))
         else pok s
       | none => pok s) fun s =>
    andThen (extract_tarball_step temp_file target_dir s) fun s =>
    let s := pushEff { s with files := eraseFile s.files temp_file } (.removePath temp_file)
    pok (sez ("Download and extraction of " ++ temp_file ++ " completed successfully!") ctx s)
  else
    let s := if s.files.contains temp_file then
               pushEff { s with files := eraseFile s.files temp_file } (.removePath temp_file)
             else s
    perr s (.downloadError tarball_url)

/-- The stable per-architecture sysroot digests hard-coded in
provision_debian_bullseye_sysroot_into (a dict lookup: unknown architectures
raise KeyError). -/
def debianSysrootSha (arch : String) : Option String :=
  if arch = "x86_64" then
    some "36a164623d03f525e3dfb783a5e9b8a00e98e1ddd2b5cff4e449bd016dd27e50"
  else if arch = "arm64" then
    some "2f915d821eec27515c0c6d21b69898e23762908d8d7ccc1aa2a8f5f25e8b7e18"
  else if arch = "armhf" then
    some "47b3a0b161ca011b2b33d4fc1ef6ef269b8208a0b7e4c900700c345acdfd1814"
  else none

/-- provision_debian_bullseye_sysroot_into: wipes any existing sysroot dir,
downloads the tarball into it, verifies the digest (raising without deleting
the tarball on mismatch), unpacks, then unlinks the tarball. -/
def provision_debian_bullseye_sysroot_into (env : Env) (target_arch : String)
    (dest_sysroot : String) (s : PState) : PResult :=
  let s := sez "Downloading and unpacking sysroot tarball..." "(sysroot) " s
  match debianSysrootSha target_arch with
  | none => perr s (.keyError target_arch)
  | some tarball_sha256sum =>
    let url := "https://commondatastorage.googleapis.com/chrome-linux-sysroot/"
                 ++ tarball_sha256sum
    let s := if env.destSysrootExists then pushEff s (.removePath dest_sysroot) else s
    let tarball := dest_sysroot ++ "/tenjin-sysroot.tar.xz"
    if env.downloadOk url then
      let s := pushEff s (.downloadTo url tarball)
      let s := { s with files := insertFile s.files tarball }
      if env.downloadedHash url != tarball_sha256sum then
        perr s (.provisioningError "Sysroot hash verification failed!")
      else
        let s := pushEff s (.extractTo tarball dest_sysroot)
        pok (pushEff { s with files := eraseFile s.files tarball } (.removePath tarball))
    else perr s (.downloadError url)

def cmake_fmt_url (version tag : String) : String :=
  "https://github.com/Kitware/CMake/releases/download/v" ++ version
    ++ "/cmake-" ++ version ++ "-" ++ tag ++ ".tar.gz"

/-- provision_cmake_into: platform-dispatched release URL (unsupported
combinations are a hard ProvisioningError), then the plain download pipeline
with no checksum. -/
def provision_cmake_into (env : Env) (version : String) (s : PState) : PResult :=
  let urlE : Except PyErr String :=
    if env.system = "Linux" && env.machine = "x86_64" then
      .ok (cmake_fmt_url version "linux-x86_64")
    else if env.system = "Linux" && env.machine = "arm64" then
      .ok (cmake_fmt_url version "linux-aarch64")
    else if env.system = "Darwin" && env.machine = "x86_64" then
      .ok (cmake_fmt_url version "macos-universal")
    else
      .error (.provisioningError
        ("Tenjin does not yet support " ++ env.system ++ "-" ++ env.machine
          ++ " for acquiring CMake."))
  match urlE with
  | .error e => perr s e
  | .ok url =>
    download_and_extract_tarball env url (env.localdir ++ "/cmake") "(cmake) "
      "a minute" none s

/-- cook_pkg_config_within, condensed to its observable file effects: copy the
uncooked binary and patch the embedded paths in place (the byte-level
needle replacement is not contended by any claim). -/
def cook_pkg_config_within (env : Env) (s : PState) : PResult :=
  let bin := xj_build_deps env.localdir ++ "/bin"
  let s := sez "Cooking pkg-config..." "(pkg-config) " s
  let s := pushEff s (.copyAt (bin ++ "/pkg-config.uncooked") (bin ++ "/pkg-config"))
  let s := pushEff s (.writeFileAt (bin ++ "/pkg-config"))
  pok (sez "... done cooking pkg-config." "(pkg-config) " s)

/-- provision_10j_deps_into: asserts Linux/x86_64, downloads the build-deps
bundle with the desired hash as required checksum, then cooks pkg-config. -/
def provision_10j_deps_into (env : Env) (version : String) (s : PState) : PResult :=
  if env.system != "Linux" then perr s .assertionError
  else if env.machine != "x86_64" then perr s .assertionError
  else
    andThen
      (download_and_extract_tarball env
        "https://images.aarno-labs.com/amp/ben/xj-build-deps_linux-x86_64.tar.xz"
        (xj_build_deps env.localdir) "(builddeps) " "a jiffy" (some version) s)
      fun s => cook_pkg_config_within env s

def binutils_names : List String :=
  ["ar", "as", "nm", "objcopy", "objdump", "readelf", "strings", "strip"]

/-- provision_10j_llvm_into: uses a pre-downloaded tarball when present, else
the download pipeline (no checksum); provisions the sysroot for the current
machine; writes the compiler config files; creates the binutils-alike and
cc/c++/ld symlinks only where no symlink exists yet; writes the goblint gcc
wrapper script. -/
def provision_10j_llvm_into (env : Env) (version : String) (s : PState) : PResult :=
  let tarball_name := "LLVM-" ++ version ++ "-Linux-x86_64.tar.xz"
  let root := xj_llvm_root env.localdir
  andThen
    (if s.files.contains tarball_name then
       extract_tarball_step tarball_name root s
     else
       download_and_extract_tarball env
         ("https://images.aarno-labs.com/amp/ben/" ++ tarball_name) root
         "(llvm) " "a minute" none s)
    fun s =>
  andThen (provision_debian_bullseye_sysroot_into env env.machine (root ++ "/sysroot") s)
    fun s =>
  let s := ["clang", "clang++", "cc", "c++"].foldl
    (fun s n => pushEff s (.writeFileAt (root ++ "/bin/" ++ n ++ ".cfg"))) s
  let s := binutils_names.foldl
    (fun s n =>
      let dst := root ++ "/bin/" ++ n
      if env.existingSymlink dst then s
      else pushEff s (.symlinkAt (root ++ "/bin/llvm-" ++ n) dst)) s
  let s := [("clang", "cc"), ("clang++", "c++"), ("lld", "ld")].foldl
    (fun s p =>
      let dst := root ++ "/bin/" ++ p.2
      if env.existingSymlink dst then s
      else pushEff s (.symlinkAt (root ++ "/bin/" ++ p.1) dst)) s
  pok (pushEff s (.writeFileAt (root ++ "/goblint-sadness/gcc")))

/-! ## Version-query helpers (grab_*_version_str) -/

def grab_opam_version_str (env : Env) (s : PState) : PState × String :=
  (pushEff s (.spawn "opam --version"), env.opamVersionOutput)

def grab_ocaml_version_str (env : Env) (s : PState) : PState × String :=
  (pushEff s (.spawn "opam exec -- ocamlc --version"), env.ocamlVersionOutput)

def grab_dune_version_str (env : Env) (s : PState) : PState × String :=
  (pushEff s (.spawn "opam exec -- dune --version"), env.duneVersionOutput)

/-! ## The engine: want_generic and the per-tool wrappers -/

abbrev Provisioner := String → PState → PResult

/-- want_generic: the single reconciliation step. VERSION_OK returns at once;
VERSION_TOO_OLD announces re-provisioning and invokes the routine;
NOT_INSTALLED invokes it silently; the routine receives the manifest entry
WANT[keyname]. The invokeRoutine effect marks exactly the provisioner(...)
call sites of the source. -/
def want_generic (W : List (String × String)) (keyname lowername titlename : String)
    (checkBy : CheckDepBy) (provisioner : Provisioner) (s : PState) : PResult :=
  match compatible W s.haveMap keyname checkBy with
  | .error e => perr s e
  | .ok .VERSION_OK => pok s
  | .ok .VERSION_TOO_OLD =>
    let s := sez (titlename ++ " version is outdated; re-provisioning...")
      ("(" ++ lowername ++ ") ") s
    match lookupStore W keyname with
    | none => perr s (.keyError keyname)
    | some v => provisioner v (pushEff s (.invokeRoutine keyname))
  | .ok .NOT_INSTALLED =>
    match lookupStore W keyname with
    | none => perr s (.keyError keyname)
    | some v => provisioner v (pushEff s (.invokeRoutine keyname))

def want_version_generic (W : List (String × String))
    (keyname lowername titlename : String) (provisioner : Provisioner)
    (s : PState) : PResult :=
  want_generic W keyname lowername titlename .VERSION provisioner s

/-- splitlines of the captured stdout (newline separation; a single trailing
newline yields no trailing empty line). -/
def splitLines (s : String) : List String :=
  let parts := (splitCharsOn '\n' s.data).map String.mk
  match parts.reverse with
  | "" :: rest => rest.reverse
  | _ => parts

/-- Split a character list at every character satisfying the predicate. -/
def splitCharsWhen (p : Char → Bool) (cs : List Char) : List (List Char) :=
  match cs with
  | [] => [[]]
  | c :: rest =>
    match splitCharsWhen p rest with
    | [] => [[]]
    | group :: groups =>
      if p c then [] :: group :: groups else (c :: group) :: groups

/-- str.split() with no arguments: whitespace runs separate, empties dropped. -/
def splitWS (s : String) : List String :=
  ((splitCharsWhen isPySpace s.data).map String.mk).filter (fun t => !t.isEmpty)

/-- want_cmake: the generic ensure step, then always a cmake --version
subprocess whose first output line is parsed and re-noted. -/
def want_cmake (W : List (String × String)) (env : Env) (s : PState) : PResult :=
  andThen
    (want_version_generic W "10j-cmake" "cmake" "CMake" (provision_cmake_into env) s)
    fun s =>
  let s := pushEff s (.spawn "cmake --version")
  match splitLines env.cmakeVersionOutput with
  | [] => perr s (.provisioningError "CMake version command returned no output.")
  | line :: _ =>
    match splitWS line with
    | ["cmake", "version", version] =>
      match parseVersion version with
      | none => perr s (.invalidVersion version)
      | some v => note_we_have "10j-cmake" (some v) none s
    | _ =>
      perr s (.provisioningError
        ("Unexpected output from CMake version command:" ++ env.cmakeVersionOutput))

/-- want_10j_llvm: the generic ensure step, then always an llvm-config
--version subprocess whose output is parsed and re-noted. -/
def want_10j_llvm (W : List (String × String)) (env : Env) (s : PState) : PResult :=
  andThen
    (want_version_generic W "10j-llvm" "llvm" "LLVM" (provision_10j_llvm_into env) s)
    fun s =>
  let s := pushEff s (.spawn "llvm-config --version")
  match parseVersion env.llvmConfigOutput with
  | none => perr s (.invalidVersion env.llvmConfigOutput)
  | some v => note_we_have "10j-llvm" (some v) none s

/-- want_10j_deps: consults the platform-derived key
10j-build-deps_SYSTEM-MACHINE under the SHA256 rule, then notes WANT[key]
(both the compatible assert and the WANT[key] subscript require the key to be
in the manifest). -/
def want_10j_deps (W : List (String × String)) (env : Env) (s : PState) : PResult :=
  let key := "10j-build-deps_" ++ env.system ++ "-" ++ env.machine
  andThen
    (want_generic W key "10j-build-deps" "Tenjin build deps" .SHA256
      (provision_10j_deps_into env) s)
    fun s =>
  match lookupStore W key with
  | none => perr s (.keyError key)
  | some h => note_we_have key none (some h) s

/-! ## The opam / OCaml / Dune chain -/

/-- provision_opam_binary_into: requires the pinned installer script to exist;
symlinks a suitable system opam when one is found; otherwise downloads a local
copy via the installer, and in CI also caches it under ~/.local/bin. -/
def provision_opam_binary_into (env : Env) (opam_version : String) (s : PState) :
    PResult :=
  if !env.installerScriptExists then
    perr s (.provisioningError
      ("Did not find expected installer script for opam-" ++ opam_version ++ "."))
  else
    let viaInstaller : PState → PResult := fun s =>
      let s := sez "Downloading a local copy of opam..." "(opam) " s
      let s := pushEff s (.spawn ("sh install-opam-" ++ opam_version ++ ".sh --download-only"))
      if !env.opamInstallerOk then perr s (.calledProcessError "install-opam")
      else
        let s := pushEff s (.spawn "chmod +x opam-downloaded")
        let s := pushEff s (.copyAt "opam-downloaded" (env.localdir ++ "/opam"))
        if env.runningInCI then
          if env.dotlocalbinOnPath then
            pok (pushEff s (.copyAt (env.localdir ++ "/opam") "HOME/.local/bin/opam"))
          else
            pok (pushEff s (.echo "WARNING: ~/.local/bin not on PATH anymore?!? OCaml cache will not work."))
        else pok s
    match env.sysOpamPath with
    | some sys_opam =>
      let s := pushEff s (.spawn (sys_opam ++ " --version"))
      match parseVersion env.sysOpamVersionOutput with
      | none => perr s (.invalidVersion env.sysOpamVersionOutput)
      | some sv =>
        match parseVersion opam_version with
        | none => perr s (.invalidVersion opam_version)
        | some wv =>
          if versionGe sv wv then
            let s := sez ("Symlinking to a suitable version of opam at " ++ sys_opam)
              "(opam) " s
            pok (pushEff s (.symlinkAt sys_opam (env.localdir ++ "/opam")))
          else viaInstaller s
    | none => viaInstaller s

/-- provision_opam_into: the binary install, then an opam --version query
whose output is parsed and noted for 10j-opam. -/
def provision_opam_into (env : Env) (version : String) (s : PState) : PResult :=
  andThen (provision_opam_binary_into env version s) fun s =>
  let (s, out) := grab_opam_version_str env s
  let s := sez ("opam version: " ++ out) "(opam) " s
  match parseVersion out with
  | none => perr s (.invalidVersion out)
  | some v => note_we_have "10j-opam" (some v) none s

def want_opam (W : List (String × String)) (env : Env) (s : PState) : PResult :=
  want_version_generic W "10j-opam" "opam" "opam" (provision_opam_into env) s

/-- provision_ocaml (install_ocaml inlined): ensures opam first; for hermetic
installs bulldozes any existing opam root; probes bubblewrap; initializes opam
when needed; reuses the tenjin switch when the live ocamlc reports exactly the
desired version string, removes it on mismatch, and otherwise creates it. -/
def provision_ocaml (W : List (String × String)) (env : Env)
    (ocaml_version : String) (s : PState) : PResult :=
  andThen (want_opam W env s) fun s =>
  let s := if !env.opamNonHermetic then
             (if env.opamrootExists then
                pushEff s (.removePath (env.localdir ++ "/opamroot"))
              else s)
           else s
  let s := pushEff s (.spawn "bwrap -- true")
  let s := if env.bwrapOk then s
           else sez "Oh! No working bubblewrap. Maybe we are in Docker? Disabling it..."
             "(ocaml) " s
  let s := pushEff s (.spawn "opam config report")
  andThen
    (if env.opamNeedsInit then
       let s := sez "Initializing opam; this will take about half a minute..."
         "(ocaml) " s
       let s := pushEff s (.spawn "opam init --bare --no-setup --disable-completion")
       if env.opamInitOk then pok s else perr s (.calledProcessError "opam init")
     else pok s) fun s =>
  let s := pushEff s (.spawn "opam switch list")
  let createSwitch : PState → PResult := fun s =>
    let s := sez "Installing OCaml; this will take four-ish minutes to compile..."
      "(ocaml) " s
    let s := pushEff s (.spawn ("opam switch create tenjin " ++ ocaml_version ++ " --no-switch"))
    if env.switchCreateOk then pok s else perr s (.calledProcessError "opam switch create")
  if env.switchListHasTenjin then
    let (s, out) := grab_ocaml_version_str env s
    if out = ocaml_version then
      pok (sez "Reusing cached OCaml, saving a few minutes of compiling..." "(ocaml) " s)
    else
      let s := sez "Removing cached OCaml switch due to version mismatch..." "(ocaml) " s
      let s := pushEff s (.spawn "opam switch remove tenjin")
      if env.switchRemoveOk then createSwitch s
      else perr s (.calledProcessError "opam switch remove")
  else createSwitch s

/-- provision_ocaml_into: the switch install, a battery of diagnostic opam
invocations, then the live ocamlc version is parsed and noted for 10j-ocaml. -/
def provision_ocaml_into (W : List (String × String)) (env : Env)
    (version : String) (s : PState) : PResult :=
  andThen (provision_ocaml W env version s) fun s =>
  let s := pushEff s (.echo "opam env (no eval env):")
  let s := pushEff s (.spawn "opam env")
  let s := pushEff s (.spawn "opam config report")
  let s := pushEff s (.echo "opam env (w/ eval env):")
  let s := pushEff s (.spawn "opam env")
  let s := pushEff s (.spawn "opam config report")
  let s := pushEff s (.echo "opam exec ocaml --version (no env):")
  let s := pushEff s (.spawn "opam exec -- ocaml --version")
  let s := pushEff s (.echo "opam exec ocaml --version (w/ env):")
  let s := pushEff s (.spawn "opam exec -- ocaml --version")
  let (s, out) := grab_ocaml_version_str env s
  match parseVersion out with
  | none => perr s (.invalidVersion out)
  | some v => note_we_have "10j-ocaml" (some v) none s

def want_ocaml (W : List (String × String)) (env : Env) (s : PState) : PResult :=
  want_version_generic W "10j-ocaml" "ocaml" "OCaml" (provision_ocaml_into W env) s

/-- provision_dune: ensures OCaml first; if a live dune already reports a
sufficient version (the HAVE cache was stale) it returns; else installs
dune via opam. -/
def provision_dune (W : List (String × String)) (env : Env)
    (dune_version : String) (s : PState) : PResult :=
  andThen (want_ocaml W env s) fun s =>
  let s := pushEff s (.spawn "opam exec -- dune --version")
  let installBlock : PState → PResult := fun s =>
    let s := sez "Installing Dune; this will take a minute to compile..." "(opam) " s
    let s := pushEff s (.spawn ("opam install dune." ++ dune_version))
    if env.opamInstallDuneOk then pok s else perr s (.calledProcessError "opam install dune")
  match env.duneCheckOutput with
  | some out =>
    match parseVersion out with
    | none => perr s (.invalidVersion out)
    | some actual =>
      match parseVersion dune_version with
      | none => perr s (.invalidVersion dune_version)
      | some wanted =>
        if versionGe actual wanted then
          pok (sez ("Dune " ++ versionToString actual ++ " is already installed.")
            "(opam) " s)
        else
          installBlock
            (sez ("Found dune version " ++ versionToString actual ++ ", but we need "
              ++ dune_version ++ ".") "(opam) " s)
  | none => installBlock s

/-- provision_dune_into: provision_dune, then the live dune version is parsed
and noted for 10j-dune (note is reached only if provision_dune returned). -/
def provision_dune_into (W : List (String × String)) (env : Env)
    (version : String) (s : PState) : PResult :=
  andThen (provision_dune W env version s) fun s =>
  let (s, out) := grab_dune_version_str env s
  match parseVersion out with
  | none => perr s (.invalidVersion out)
  | some v => note_we_have "10j-dune" (some v) none s

def want_dune (W : List (String × String)) (env : Env) (s : PState) : PResult :=
  want_version_generic W "10j-dune" "dune" "Dune" (provision_dune_into W env) s

/-- require_rust_stuff, condensed: with rustc, cargo and rustup all on PATH it
is a no-op; otherwise it instructs the user and exits (the interactive
complain-and-die path collapses to its sys.exit). -/
def require_rust_stuff (env : Env) (s : PState) : PResult :=
  if env.rustOk then pok s
  else
    perr (sez "Rust is not installed, or is not available on your $PATH" "(rust) " s)
      (.sysExit 1)

/-- provision_desires, the ensure-all entry point: rust preflight, a one-time
banner when 10j-dune has never been noted, then the four want steps in fixed
order: build-deps, LLVM and sysroot, CMake, Dune (which transitively ensures
OCaml and opam). -/
def provision_desires (W : List (String × String)) (env : Env) (s : PState) :
    PResult :=
  andThen (require_rust_stuff env s) fun s =>
  let s := if (lookupStore s.haveMap "10j-dune").isNone then
      sez "We will also install Rust and OCaml, which will take a few minutes..."
        "(overall-provisioning) "
        (sez "    Clang+LLVM, a sysroot, and misc build tools like CMake."
          "(overall-provisioning) "
          (sez "This involves downloading and extracting a few hundred megs of tarballs:"
            "(overall-provisioning) "
            (sez ("Provisioning local directory " ++ env.localdir ++ "...")
              "(overall-provisioning) " s)))
    else s
  andThen (want_10j_deps W env s) fun s =>
  andThen (want_10j_llvm W env s) fun s =>
  andThen (want_cmake W env s) fun s =>
  want_dune W env s

/-! ## Concrete fixtures for the theorems -/

def emptyState : PState := { haveMap := [], fileMap := none, files := [], trace := [] }

/-- A healthy Linux x86_64 environment: all tools available, every download
succeeds and serves the expected content, and the freshly installed tools
report the manifest versions. -/
def linuxEnv : Env :=
  { system := "Linux", machine := "x86_64", localdir := "LOCAL",
    rustOk := true,
    cmakeVersionOutput := "cmake version 3.31.7\n\nCMake suite maintained by Kitware\n",
    llvmConfigOutput := "18.1.8\n",
    opamVersionOutput := "2.3.0\n",
    ocamlVersionOutput := "5.2.0\n",
    duneVersionOutput := "3.18.0\n",
    duneCheckOutput := none,
    downloadOk := fun _ => true,
    downloadedHash := fun _ => "rev-03d4672c4",
    sysOpamPath := none,
    sysOpamVersionOutput := "",
    opamNonHermetic := false,
    opamrootExists := false,
    bwrapOk := true,
    opamNeedsInit := true,
    opamInitOk := true,
    switchListHasTenjin := false,
    switchRemoveOk := true,
    switchCreateOk := true,
    opamInstallDuneOk := true,
    installerScriptExists := true,
    opamInstallerOk := true,
    runningInCI := false,
    dotlocalbinOnPath := true,
    destSysrootExists := false,
    existingSymlink := fun _ => false }

def countInvokes (t : List Eff) : Nat :=
  t.countP fun e =>
    match e with
    | .invokeRoutine _ => true
    | _ => false

def countSpawns (t : List Eff) : Nat :=
  t.countP fun e =>
    match e with
    | .spawn _ => true
    | _ => false

/-! ## Further fixtures -/

/-- Shorthand for a parsed version term in witness statements. -/
def pv (s : String) : PyVersion := (parseVersion s).getD default

/-- A store that already records CMake at exactly the wanted manifest version. -/
def cmakeOkState : PState :=
  { haveMap := [("10j-cmake", "3.31.7")], fileMap := some [("10j-cmake", "3.31.7")],
    files := [], trace := [] }

/-- A store that already records LLVM at exactly the wanted manifest version. -/
def llvmOkState : PState :=
  { haveMap := [("10j-llvm", "18.1.8")], fileMap := some [("10j-llvm", "18.1.8")],
    files := [], trace := [] }

/-- linuxEnv, except every download hashes to a value no manifest expects. -/
def badHashEnv : Env := { linuxEnv with downloadedHash := fun _ => "0000" }

/-- A manifest that does contain the platform-derived build-deps key. -/
def depsW : List (String × String) := [("10j-build-deps_Linux-x86_64", "aaaa")]

/-- linuxEnv, except downloads hash to the depsW build-deps digest. -/
def depsEnv : Env := { linuxEnv with downloadedHash := fun _ => "aaaa" }

/-- linuxEnv, except the freshly installed cmake reports version 3.99.0. -/
def cmakeNewEnv : Env := { linuxEnv with cmakeVersionOutput := "cmake version 3.99.0\n" }

/-- First provision_desires call on a fresh store. -/
def firstRun : PResult := provision_desires WANT linuxEnv emptyState

/-- Second provision_desires call, from the state the first call left. -/
def secondRun : PResult := provision_desires WANT linuxEnv firstRun.1

/-- An acquisition routine that raises as soon as it is invoked, before any
note call could be reached. -/
def failingProvisioner : Provisioner :=
  fun _ s => perr s (.downloadError "https://example.invalid/artifact.tar.xz")

/-- A concrete streaming hasher (records the chunk sequence) for witnesses. -/
def listAlg : HashAlg (List (List Nat)) :=
  { init := [], update := fun st c => st ++ [c], hexdigest := fun _ => "digest" }

/-! ## Helper lemmas -/

theorem lookupStore_setStore (m : List (String × String)) (k v : String) :
    lookupStore (setStore m k v) k = some v := by
  induction m with
  | nil => simp [setStore, lookupStore]
  | cons kv rest ih =>
    obtain ⟨a, b⟩ := kv
    by_cases h : a = k <;> simp [setStore, lookupStore, h, ih]

theorem contains_insertFile (fs : List String) (f : String) :
    (insertFile fs f).contains f = true := by
  unfold insertFile
  split
  · assumption
  · exact List.elem_eq_true_of_mem (by simp)

theorem note_we_have_version_spec (name : String) (v : PyVersion) (s : PState) :
    (note_we_have name (some v) none s).2 = none ∧
    (note_we_have name (some v) none s).1.haveMap =
      setStore s.haveMap name (versionToString v) := by
  unfold note_we_have
  by_cases h : lookupStore s.haveMap name = some (versionToString v) <;>
    simp [h, pok, pushEff]

theorem chunkLoop_flatten (fuel : Nat) (l : List Nat) (h : l.length ≤ fuel) :
    (chunkLoop fuel l).flatten = l := by
  induction fuel generalizing l with
  | zero =>
    cases l with
    | nil => simp [chunkLoop]
    | cons x xs => simp at h
  | succ n ih =>
    cases l with
    | nil => simp [chunkLoop]
    | cons x xs =>
      have hd : ((x :: xs).drop 8192).length ≤ n := by
        simp only [List.length_drop]
        simp at h ⊢
        omega
      simp only [chunkLoop, List.flatten_cons, ih _ hd, List.take_append_drop]

theorem chunkLoop_sizes (fuel : Nat) (l : List Nat) :
    ∀ c ∈ chunkLoop fuel l, c.length ≤ 8192 ∧ c ≠ [] := by
  induction fuel generalizing l with
  | zero => simp [chunkLoop]
  | succ n ih =>
    cases l with
    | nil => simp [chunkLoop]
    | cons x xs =>
      simp only [chunkLoop, List.mem_cons]
      rintro c (rfl | hc)
      · refine ⟨by simp [List.length_take], ?_⟩
        apply List.ne_nil_of_length_pos
        simp [List.length_take]
      · exact ih _ c hc

/-! ## Claim theorems -/

/-- C1: the claim says every tool key the engine consults during a full
provisioning run is present in WANT, in particular the platform-derived
build-deps key. The code violates it: on Linux x86_64 the consulted key
10j-build-deps_Linux-x86_64 is absent from the WANT table of constants.py, so
the assert inside compatible fails (AssertionError) as soon as want_10j_deps
runs, before any provisioner is invoked. -/
theorem build_deps_key_consulted_but_missing :
    lookupStore WANT ("10j-build-deps_" ++ linuxEnv.system ++ "-" ++ linuxEnv.machine) = none ∧
    (want_10j_deps WANT linuxEnv emptyState).2 = some PyErr.assertionError ∧
    countInvokes (want_10j_deps WANT linuxEnv emptyState).1.trace = 0 := ⟨rfl, rfl, rfl⟩

/-- C2: the claim says a second ensure_all after an unchanged first one finds
VERSION_OK everywhere and invokes zero acquisition routines. In the code both
calls die with the AssertionError of the missing build-deps key before
invoking anything: the first call records nothing, so afterwards compatible
for 10j-dune is NOT_INSTALLED, not VERSION_OK, and the second call fails
identically. -/
theorem ensure_all_twice_blocked_by_missing_key :
    firstRun.2 = some PyErr.assertionError ∧
    firstRun.1.haveMap = [] ∧
    compatible WANT firstRun.1.haveMap "10j-dune" CheckDepBy.VERSION =
      Except.ok InstallationState.NOT_INSTALLED ∧
    secondRun.2 = some PyErr.assertionError ∧
    countInvokes firstRun.1.trace = 0 ∧
    countInvokes secondRun.1.trace = 0 := ⟨rfl, rfl, rfl, rfl, rfl, rfl⟩

/-- C3 counterexample: with CMake already recorded at the wanted version
(compatible returns VERSION_OK), want_cmake still spawns the cmake --version
subprocess after the fast path, contradicting the claim that the want
wrappers return immediately with no subprocess on VERSION_OK. -/
theorem want_cmake_fast_path_spawns :
    compatible WANT cmakeOkState.haveMap "10j-cmake" CheckDepBy.VERSION =
      Except.ok InstallationState.VERSION_OK ∧
    countSpawns (want_cmake WANT linuxEnv cmakeOkState).1.trace = 1 ∧
    (want_cmake WANT linuxEnv cmakeOkState).1.trace.contains
      (Eff.spawn "cmake --version") = true := ⟨rfl, by decide, by decide⟩

/-- C3 amended: want_generic itself, on VERSION_OK, returns immediately with
the state untouched: no effect is logged, no provisioner runs, nothing is
mutated or re-persisted. (The wrappers want_cmake and want_10j_llvm then still
run their version-query subprocess and re-note the unchanged value.) -/
theorem want_generic_version_ok_is_pure (W : List (String × String))
    (k ln tn : String) (cb : CheckDepBy) (p : Provisioner) (s : PState)
    (h : compatible W s.haveMap k cb = .ok .VERSION_OK) :
    want_generic W k ln tn cb p s = (s, none) := by
  simp [want_generic, h, pok]

/-- Witness for the amended C3 theorem at a concrete VERSION_OK store. -/
theorem want_generic_version_ok_witness :
    want_generic WANT "10j-llvm" "llvm" "LLVM" CheckDepBy.VERSION failingProvisioner
      llvmOkState = (llvmOkState, none) :=
  want_generic_version_ok_is_pure WANT "10j-llvm" "llvm" "LLVM" CheckDepBy.VERSION
    failingProvisioner llvmOkState rfl

/-- C4: compatible returns NOT_INSTALLED exactly when the key is absent from
the store; for a present key under VERSION it returns VERSION_OK precisely
when the parsed stored version is at least the parsed manifest version and
VERSION_TOO_OLD otherwise; under SHA256 it returns VERSION_OK precisely on
exact string equality, with no version-ordering semantics. -/
theorem compatible_spec (W hm : List (String × String)) (k wanted : String)
    (cb : CheckDepBy) (hW : lookupStore W k = some wanted) :
    (lookupStore hm k = none → compatible W hm k cb = .ok .NOT_INSTALLED) ∧
    (∀ v, lookupStore hm k = some v → compatible W hm k cb ≠ .ok .NOT_INSTALLED) ∧
    (∀ v hv wv, lookupStore hm k = some v → parseVersion v = some hv →
      parseVersion wanted = some wv →
      compatible W hm k .VERSION =
        (if versionGe hv wv then .ok .VERSION_OK else .ok .VERSION_TOO_OLD)) ∧
    (∀ v, lookupStore hm k = some v →
      compatible W hm k .SHA256 =
        (if v = wanted then .ok .VERSION_OK else .ok .VERSION_TOO_OLD)) := by
  refine ⟨?_, ?_, ?_, ?_⟩
  · intro h; simp [compatible, hW, h]
  · intro v hv
    cases cb with
    | VERSION =>
      simp only [compatible, hW, hv]
      cases hpv : parseVersion v with
      | none => simp [hpv]
      | some a =>
        cases hpw : parseVersion wanted with
        | none => simp [hpv, hpw]
        | some b => simp only [hpv, hpw]; split <;> simp
    | SHA256 =>
      simp only [compatible, hW, hv]
      split <;> simp
  · intro v hv wv h1 h2 h3
    simp [compatible, hW, h1, h2, h3]
  · intro v h1
    simp [compatible, hW, h1]

/-- Witness for C4: a stored 3.31.8 satisfies the wanted 3.31.7 under the
VERSION rule. -/
theorem compatible_spec_witness :
    compatible WANT [("10j-cmake", "3.31.8")] "10j-cmake" CheckDepBy.VERSION =
      Except.ok InstallationState.VERSION_OK := by
  have h := ((compatible_spec WANT [("10j-cmake", "3.31.8")] "10j-cmake" "3.31.7"
    CheckDepBy.VERSION rfl).2.2.1) "3.31.8" (pv "3.31.8") (pv "3.31.7") rfl rfl rfl
  rw [show versionGe (pv "3.31.8") (pv "3.31.7") = true from rfl] at h
  simpa using h

/-- C5 counterexample: on a checksum mismatch both verifying paths raise the
fatal ProvisioningError, but the mismatched downloaded file is still on disk
when the error propagates, contradicting the claimed deletion. -/
theorem checksum_mismatch_leaves_file_on_disk :
    ((download_and_extract_tarball badHashEnv
        "https://images.aarno-labs.com/amp/ben/xj-build-deps_linux-x86_64.tar.xz"
        "T" "(builddeps) " "a jiffy" (some "rev-03d4672c4") emptyState).2 =
      some (PyErr.provisioningError
        "SHA256 checksum verification failed for xj-build-deps_linux-x86_64.tar.xz!") ∧
     (download_and_extract_tarball badHashEnv
        "https://images.aarno-labs.com/amp/ben/xj-build-deps_linux-x86_64.tar.xz"
        "T" "(builddeps) " "a jiffy" (some "rev-03d4672c4") emptyState).1.files =
      ["xj-build-deps_linux-x86_64.tar.xz"]) ∧
    ((provision_debian_bullseye_sysroot_into badHashEnv "x86_64" "SR" emptyState).2 =
      some (PyErr.provisioningError "Sysroot hash verification failed!") ∧
     (provision_debian_bullseye_sysroot_into badHashEnv "x86_64" "SR" emptyState).1.files =
      ["SR/tenjin-sysroot.tar.xz"]) := ⟨⟨rfl, rfl⟩, ⟨rfl, rfl⟩⟩

/-- C5 amended: whenever the computed digest differs from the required one,
both checksum-verifying paths fail with a fatal ProvisioningError, and in both
the mismatched downloaded file remains on disk when the error propagates
(deletion happens only for download-phase failures). -/
theorem checksum_mismatch_fatal_no_cleanup :
    (∀ (env : Env) (url target ctx te req : String) (s : PState),
      env.downloadOk url = true → (env.downloadedHash url != req) = true →
      (download_and_extract_tarball env url target ctx te (some req) s).2 =
          some (.provisioningError
            ("SHA256 checksum verification failed for " ++ urlBasename url ++ "!")) ∧
        (download_and_extract_tarball env url target ctx te (some req) s).1.files.contains
          (urlBasename url) = true) ∧
    (∀ (env : Env) (arch dest expected : String) (s : PState),
      debianSysrootSha arch = some expected →
      env.downloadOk
        ("https://commondatastorage.googleapis.com/chrome-linux-sysroot/" ++ expected) = true →
      (env.downloadedHash
        ("https://commondatastorage.googleapis.com/chrome-linux-sysroot/" ++ expected)
          != expected) = true →
      (provision_debian_bullseye_sysroot_into env arch dest s).2 =
          some (.provisioningError "Sysroot hash verification failed!") ∧
        (provision_debian_bullseye_sysroot_into env arch dest s).1.files.contains
          (dest ++ "/tenjin-sysroot.tar.xz") = true) := by
  constructor
  · intro env url target ctx te req s hdl hne
    simp only [download_and_extract_tarball, sez, pushEff, hdl, if_true, hne]
    constructor
    · rfl
    · exact contains_insertFile _ _
  · intro env arch dest expected s hsha hdl hne
    simp only [provision_debian_bullseye_sysroot_into, sez, pushEff, hsha, hdl, if_true, hne]
    constructor
    · split <;> rfl
    · split <;> exact contains_insertFile _ _

/-- Witness for the amended C5 theorem at concrete mismatching downloads. -/
theorem checksum_mismatch_fatal_witness :
    (download_and_extract_tarball badHashEnv
        "https://images.aarno-labs.com/amp/ben/xj-build-deps_linux-x86_64.tar.xz"
        "D" "(x) " "a jiffy" (some "expected-hash") emptyState).1.files.contains
      "xj-build-deps_linux-x86_64.tar.xz" = true ∧
    (provision_debian_bullseye_sysroot_into badHashEnv "arm64" "S2" emptyState).1.files.contains
      "S2/tenjin-sysroot.tar.xz" = true :=
  ⟨(checksum_mismatch_fatal_no_cleanup.1 badHashEnv
      "https://images.aarno-labs.com/amp/ben/xj-build-deps_linux-x86_64.tar.xz"
      "D" "(x) " "a jiffy" "expected-hash" emptyState rfl rfl).2,
   (checksum_mismatch_fatal_no_cleanup.2 badHashEnv "arm64" "S2"
      "2f915d821eec27515c0c6d21b69898e23762908d8d7ccc1aa2a8f5f25e8b7e18"
      emptyState rfl rfl rfl).2⟩

/-- C6: when an archive whose recognized-suffix base name is base unpacks a
single top-level directory also named base into an empty target, the result is
exactly that directory's contents, with no base subdirectory remaining; and
the flattening is applied exactly once, non-recursively: a same-named
directory nested one level deeper survives untouched. -/
theorem extract_flattening (name base : String) (inner : List (String × FsNode))
    (hb : tarballBasename name = some base) :
    extract_tarball name [] [(base, FsNode.dir inner)] = Except.ok inner ∧
    (∀ inner2, extract_tarball name [] [(base, FsNode.dir [(base, FsNode.dir inner2)])] =
      Except.ok [(base, FsNode.dir inner2)]) := by
  unfold tarballBasename at hb
  cases hsel : select_tarball_suffix name with
  | none => rw [hsel] at hb; exact absurd hb (by simp)
  | some suf =>
    rw [hsel] at hb
    have hbase : base = removeSuffixStr name suf := by
      injection hb with h; exact h.symm
    subst hbase
    constructor
    · simp [extract_tarball, hsel, flattenOnce]
    · intro inner2
      simp [extract_tarball, hsel, flattenOnce]

/-- Witness for C6: extracting foo-1.2.tar.gz with sole top-level directory
foo-1.2 into an empty target yields its contents directly. -/
theorem extract_flattening_witness :
    extract_tarball "foo-1.2.tar.gz" []
      [("foo-1.2", FsNode.dir [("README", FsNode.file "hello")])] =
    Except.ok [("README", FsNode.file "hello")] :=
  (extract_flattening "foo-1.2.tar.gz" "foo-1.2"
    [("README", FsNode.file "hello")] rfl).1

/-- C7: if the acquisition routine invoked by want_generic raises without
having touched the store (it never reached a note call), the whole ensure run
leaves both the in-memory store and the persisted file unchanged: query for
the ensured key afterwards returns the pre-acquisition value, never a
not-yet-confirmed new one. -/
theorem acquisition_failure_leaves_store_unchanged
    (W : List (String × String)) (k ln tn : String) (cb : CheckDepBy)
    (p : Provisioner) (s : PState)
    (hp : ∀ v s2, (p v s2).1.haveMap = s2.haveMap ∧ (p v s2).1.fileMap = s2.fileMap ∧
      (p v s2).2.isSome = true) :
    (want_generic W k ln tn cb p s).1.haveMap = s.haveMap ∧
    (want_generic W k ln tn cb p s).1.fileMap = s.fileMap ∧
    query (want_generic W k ln tn cb p s).1 k = query s k := by
  have frame : (want_generic W k ln tn cb p s).1.haveMap = s.haveMap ∧
      (want_generic W k ln tn cb p s).1.fileMap = s.fileMap := by
    unfold want_generic
    cases hc : compatible W s.haveMap k cb with
    | error e => exact ⟨rfl, rfl⟩
    | ok st =>
      cases st with
      | NOT_INSTALLED =>
        cases hw : lookupStore W k with
        | none => exact ⟨rfl, rfl⟩
        | some v =>
          exact ⟨by rw [(hp v _).1]; simp [pushEff, sez],
                 by rw [(hp v _).2.1]; simp [pushEff, sez]⟩
      | VERSION_OK => exact ⟨rfl, rfl⟩
      | VERSION_TOO_OLD =>
        cases hw : lookupStore W k with
        | none => exact ⟨rfl, rfl⟩
        | some v =>
          exact ⟨by rw [(hp v _).1]; simp [pushEff, sez],
                 by rw [(hp v _).2.1]; simp [pushEff, sez]⟩
  exact ⟨frame.1, frame.2, by unfold query; rw [frame.1]⟩

/-- Witness for C7: a routine that raises on invocation leaves the store and
the 10j-dune entry untouched. -/
theorem acquisition_failure_witness :
    (want_generic WANT "10j-dune" "dune" "Dune" CheckDepBy.VERSION failingProvisioner
        emptyState).1.haveMap = emptyState.haveMap ∧
    query (want_generic WANT "10j-dune" "dune" "Dune" CheckDepBy.VERSION failingProvisioner
        emptyState).1 "10j-dune" = query emptyState "10j-dune" :=
  ⟨(acquisition_failure_leaves_store_unchanged WANT "10j-dune" "dune" "Dune"
      CheckDepBy.VERSION failingProvisioner emptyState
      (fun _ _ => ⟨rfl, rfl, rfl⟩)).1,
   (acquisition_failure_leaves_store_unchanged WANT "10j-dune" "dune" "Dune"
      CheckDepBy.VERSION failingProvisioner emptyState
      (fun _ _ => ⟨rfl, rfl, rfl⟩)).2.2⟩

/-- C8 counterexample: under a manifest that contains the platform build-deps
key, want_10j_deps completes an acquisition and then records exactly the
manifest entry for the key, having spawned no subprocess at all: no specifier
is re-derived from the freshly installed artifact by parsing any
version-report output. (Under the shipped WANT table the recording is not
even reachable: the run dies on the missing key.) -/
theorem want_10j_deps_note_echoes_manifest :
    (want_10j_deps depsW depsEnv emptyState).2 = none ∧
    lookupStore (want_10j_deps depsW depsEnv emptyState).1.haveMap
      "10j-build-deps_Linux-x86_64" = some "aaaa" ∧
    lookupStore depsW "10j-build-deps_Linux-x86_64" = some "aaaa" ∧
    countSpawns (want_10j_deps depsW depsEnv emptyState).1.trace = 0 ∧
    (want_10j_deps WANT depsEnv emptyState).2 = some PyErr.assertionError :=
  ⟨rfl, rfl, rfl, by decide, rfl⟩

/-- C8 amended: for the version-rule tools the engine does re-derive the
recorded specifier from the tool itself: whatever version string the cmake
--version output reports is what want_cmake notes into the store, independent
of the manifest. -/
theorem want_cmake_rederives_from_tool_output
    (W : List (String × String)) (env : Env) (s s1 : PState) (line : String)
    (restL : List String) (vstr : String) (v : PyVersion)
    (hgen : want_version_generic W "10j-cmake" "cmake" "CMake"
      (provision_cmake_into env) s = (s1, none))
    (hlines : splitLines env.cmakeVersionOutput = line :: restL)
    (hws : splitWS line = ["cmake", "version", vstr])
    (hv : parseVersion vstr = some v) :
    (want_cmake W env s).2 = none ∧
    lookupStore (want_cmake W env s).1.haveMap "10j-cmake" =
      some (versionToString v) := by
  unfold want_cmake
  rw [hgen]
  simp only [andThen, hlines, hws, hv]
  have h := note_we_have_version_spec "10j-cmake" v (pushEff s1 (.spawn "cmake --version"))
  exact ⟨h.1, by rw [h.2]; exact lookupStore_setStore _ _ _⟩

/-- Witness for the amended C8 theorem: a cmake that reports 3.99.0 gets
recorded as 3.99.0 even though the manifest wants 3.31.7. -/
theorem want_cmake_rederives_witness :
    (want_cmake WANT cmakeNewEnv cmakeOkState).2 = none ∧
    lookupStore (want_cmake WANT cmakeNewEnv cmakeOkState).1.haveMap "10j-cmake" =
      some (versionToString (pv "3.99.0")) :=
  want_cmake_rederives_from_tool_output WANT cmakeNewEnv cmakeOkState cmakeOkState
    "cmake version 3.99.0" [] "3.99.0" (pv "3.99.0") rfl rfl rfl rfl

/-- C9 counterexample: on a read failure compute_sha256 returns normally with
None (after printing), contradicting the claim that it fails by raising an
IOError wrapping the underlying failure. -/
theorem compute_sha256_swallows_read_failure :
    compute_sha256 listAlg (ReadOutcome.readFailure "simulated read failure") =
      Except.ok none := rfl

/-- C9 amended: compute_sha256 streams the input through the hasher in
8192-byte chunks that reassemble to the whole file, every chunk nonempty and
at most 8192 bytes; on a read failure it returns None without raising, so an
error outcome is never a digest-shaped value. -/
theorem compute_sha256_streams_and_never_raises {St : Type} (alg : HashAlg St) :
    (∀ msg, compute_sha256 alg (ReadOutcome.readFailure msg) = Except.ok none) ∧
    (∀ bytes, compute_sha256 alg (ReadOutcome.content bytes) =
        Except.ok (some (alg.hexdigest
          ((chunksOf8192 bytes).foldl alg.update alg.init))) ∧
      (chunksOf8192 bytes).flatten = bytes ∧
      ∀ c ∈ chunksOf8192 bytes, c.length ≤ 8192 ∧ c ≠ []) :=
  ⟨fun _ => rfl,
   fun bytes => ⟨rfl, chunkLoop_flatten bytes.length bytes le_rfl,
     chunkLoop_sizes bytes.length bytes⟩⟩

/-- Witness for the amended C9 theorem at a concrete hasher and input. -/
theorem compute_sha256_streams_witness :
    compute_sha256 listAlg (ReadOutcome.content [1, 2, 3]) =
      Except.ok (some (listAlg.hexdigest
        ((chunksOf8192 [1, 2, 3]).foldl listAlg.update listAlg.init))) ∧
    (chunksOf8192 [1, 2, 3]).flatten = [1, 2, 3] :=
  ⟨((compute_sha256_streams_and_never_raises listAlg).2 [1, 2, 3]).1,
   ((compute_sha256_streams_and_never_raises listAlg).2 [1, 2, 3]).2.1⟩

/-- C10: when the stored value for a key present in both the manifest and the
store does not parse as a version, compatible under the VERSION rule raises
the version-parsing exception instead of returning an InstallationState. -/
theorem compatible_version_raises (W hm : List (String × String))
    (k v w : String) (hW : lookupStore W k = some w)
    (hv : lookupStore hm k = some v) (hp : parseVersion v = none) :
    compatible W hm k .VERSION = .error (.invalidVersion v) := by
  simp [compatible, hW, hv, hp]

/-- Witness for C10: a content-hash-shaped stored value under the VERSION rule
raises InvalidVersion. -/
theorem compatible_version_raises_witness :
    compatible WANT [("10j-llvm", "rev-03d4672c4")] "10j-llvm" CheckDepBy.VERSION =
      Except.error (PyErr.invalidVersion "rev-03d4672c4") :=
  compatible_version_raises WANT [("10j-llvm", "rev-03d4672c4")] "10j-llvm"
    "rev-03d4672c4" "18.1.8" rfl rfl rfl

end Neinjin
